import Mathlib

/-!
Verification of the Column Inference & Measurement Reconciliation/Audit
Engine of `src/app.py` (Streamlit dashboard "Engenharia Inteligente").

The pandas data model is embedded shallowly:

* a cell of a dataframe column is `Cell`: a numeric value (`Cell.num`,
  floats modelled as exact rationals), a missing value / NaN (`Cell.na`),
  or a text value (`Cell.txt`) as it occurs in object-dtype columns;
* a dataframe row is an association list from column label to cell
  (after `pd.concat`, a label absent from a row reads as NaN, which
  `getCell` models with a `Cell.na` default);
* pandas reductions (`Series.sum`, `Series.mean`, `Series.std`) skip
  NaN cells (`skipna=True` default), so they act on `validVals`;
  `Series.mean`/`Series.std` of an empty/insufficient series is NaN,
  modelled by `Option`/guards; elementwise comparisons (`series > x`,
  `series < 0`) are `False` on NaN cells and raise `TypeError` on text
  cells of an object-dtype column, modelled by `Except`.
-/

/-- A pandas cell value: numeric (float modelled as `ℚ`), missing (NaN),
or text (object dtype). -/
inductive Cell where
  | num (q : ℚ)
  | na
  | txt (s : String)
deriving DecidableEq

/-- Numeric coercion of a single cell: only `Cell.num` carries a number;
NaN and text carry none. -/
def toNum : Cell → Option ℚ
  | Cell.num q => some q
  | Cell.na => none
  | Cell.txt _ => none

/-- The numeric values of a column, in row order — what pandas NaN-skipping
reductions actually operate on. -/
def validVals (cs : List Cell) : List ℚ := cs.filterMap toNum

/-- Whether a column holds a text cell (making it object dtype, so numeric
comparisons on it raise `TypeError`). -/
def hasTxt (cs : List Cell) : Bool :=
  cs.any fun c => match c with
    | Cell.txt _ => true
    | _ => false

/-- `df[col].sum()` on a numeric column: NaN cells are skipped, i.e.
contribute 0 (source: `total_medido = df[col_med].sum()`, app.py line 167). -/
def seriesSum (cs : List Cell) : ℚ := (validVals cs).sum

/-- `df[col].mean()` on a numeric column: NaN-skipping arithmetic mean;
`none` models the NaN result on a column without numeric values
(source: `media_medicao = df[col_med].mean()`, app.py line 169). -/
def seriesMean (cs : List Cell) : Option ℚ :=
  let v := validVals cs
  if v.length = 0 then none else some (v.sum / (v.length : ℚ))

/-- Arithmetic mean of a list of rationals (the value of `Series.mean`
once the NaN cells are gone). -/
def meanQ (vs : List ℚ) : ℚ := vs.sum / (vs.length : ℚ)

/-- Sum of squared deviations from the mean; `Series.std()` (pandas default
`ddof=1`) is `Real.sqrt (ssdQ vs / (vs.length - 1))`. -/
def ssdQ (vs : List ℚ) : ℚ := (vs.map fun x => (x - meanQ vs) ^ 2).sum

/-- Decision `x > mean + k * std` of app.py line 148 with `std` the sample
standard deviation `√(ssdQ vs / (n - 1))`, in the exact square form
(for `k ≥ 0` and `n ≥ 2`: `μ + k·σ < x ↔ μ < x ∧ k²·ssd < (x-μ)²·(n-1)`,
proved in `outlierFlag_iff_real`).  For `n < 2` pandas `std` is NaN and the
comparison is `False`, hence the length guard. -/
def outlierFlag (k : ℚ) (vs : List ℚ) (x : ℚ) : Bool :=
  decide (2 ≤ vs.length) && decide (meanQ vs < x) &&
    decide (k ^ 2 * ssdQ vs < (x - meanQ vs) ^ 2 * ((vs.length : ℚ) - 1))

/-- The outlier test of the source, app.py line 148:
`outliers = df[df[col_med] > (mean_med + 2 * std_med)]` — the multiplier
is the literal `2`. -/
def isOutlier : List ℚ → ℚ → Bool := outlierFlag 2

/-- Number of rows flagged by the outlier check: `len(outliers)` of
app.py lines 148-150.  NaN cells compare `False`, so only numeric cells
can be flagged; the mean and std are taken over the same column. -/
def outlierCount (cs : List Cell) : ℕ :=
  ((validVals cs).filter (isOutlier (validVals cs))).length

/-- Number of rows flagged by the negative-value check:
`negatives = df[df[col_med] < 0]; len(negatives)` of app.py lines 153-155.
NaN cells compare `False`. -/
def negCount (cs : List Cell) : ℕ :=
  ((validVals cs).filter fun x => decide (x < 0)).length

/-- The outlier audit as seen by the caller.  On an object-dtype column
(one holding text cells) `df[col].mean()` / the elementwise `>` raise
`TypeError`, which `main` does not catch; app.py lines 144-150. -/
def auditOutlier (cs : List Cell) : Except String ℕ :=
  if hasTxt cs then Except.error "TypeError" else Except.ok (outlierCount cs)

/-- The negative-value audit as seen by the caller.  On an object-dtype
column the elementwise `<` between a text cell and `0` raises `TypeError`,
which `main` does not catch; app.py lines 153-155. -/
def auditNegative (cs : List Cell) : Except String ℕ :=
  if hasTxt cs then Except.error "TypeError" else Except.ok (negCount cs)

/-- Kinds of audit findings appended to the `anomalies` list. -/
inductive FindingKind where
  | statisticalOutlier
  | negativeValue
deriving DecidableEq

/-- An audit finding: its kind and the number of affected rows reported
in the corresponding message. -/
structure Finding where
  kind : FindingKind
  affectedRowCount : ℕ
deriving DecidableEq

/-- The `anomalies` list built by app.py lines 143-155: one outlier
finding when `not outliers.empty`, then one negative-value finding when
`not negatives.empty`. -/
def findingsOf (cs : List Cell) : List Finding :=
  (if 0 < outlierCount cs then
    [{ kind := FindingKind.statisticalOutlier, affectedRowCount := outlierCount cs }]
  else []) ++
  (if 0 < negCount cs then
    [{ kind := FindingKind.negativeValue, affectedRowCount := negCount cs }]
  else [])

/-- The audit pass as seen by the caller (TypeError on object dtype). -/
def anomalias (cs : List Cell) : Except String (List Finding) :=
  if hasTxt cs then Except.error "TypeError" else Except.ok (findingsOf cs)

/-- Python `col_str.lower()` (app.py line 72): lower-case each character.
Lean's `Char.toLower` lowers the ASCII range; Python also lowers non-ASCII
capitals, but no keyword and no label considered here contains one. -/
def strLower (s : String) : String := String.mk (s.data.map Char.toLower)

/-- Substring test on character lists (Python `needle in haystack`). -/
def hasSubList (w : List Char) : List Char → Bool
  | [] => w.isEmpty
  | c :: t => w.isPrefixOf (c :: t) || hasSubList w t

/-- `any(word in col_lower for word in words)` of app.py line 74. -/
def kwAny (kws : List String) (colLower : String) : Bool :=
  kws.any fun w => hasSubList w.toList colLower.toList

/-- Keyword list for the date role, app.py line 65. -/
def dataKw : List String := ["data", "date", "periodo", "mes", "mês"]

/-- Keyword list for the quantity/measurement role, app.py line 66. -/
def medicaoKw : List String := ["medicao", "medição", "quantidade", "qty", "amount", "medido"]

/-- Keyword list for the monetary-value role, app.py line 67. -/
def valorKw : List String := ["valor", "preço", "custo", "total", "price", "value"]

/-- The inferred schema mapping, app.py line 62:
`{"data": None, "medicao": None, "valor": None}`. -/
structure Mapping where
  data : Option String
  medicao : Option String
  valor : Option String
deriving DecidableEq

/-- One role slot update for one column: `if mapping[key] is None and
any(word in col_lower for word in words): mapping[key] = col`
(app.py lines 73-75).  A filled slot is never overwritten. -/
def bindRole (cur : Option String) (kws : List String) (colLower col : String) :
    Option String :=
  match cur with
  | some c => some c
  | none => if kwAny kws colLower then some col else none

/-- Processing of one column by the loop body of app.py lines 70-75.
The Python loop visits the roles in dict order `data`, `medicao`, `valor`
and has no `break`: every role slot is tested against the column, and the
three slots are updated independently (filling one slot does not affect
the test of the next), which this simultaneous record update mirrors. -/
def step (m : Mapping) (col : String) : Mapping :=
  let cl := strLower col
  { data := bindRole m.data dataKw cl col
    medicao := bindRole m.medicao medicaoKw cl col
    valor := bindRole m.valor valorKw cl col }

/-- `mapear_colunas_inteligentes`, app.py lines 61-77: fold the per-column
update over the column labels in their original order, starting from the
empty mapping.  (Non-string labels are passed through `str(col)` in the
source; labels are modelled as the resulting strings.) -/
def mapear_colunas_inteligentes (columns : List String) : Mapping :=
  columns.foldl step { data := none, medicao := none, valor := none }

/-- A dataframe row: association list from column label to cell. -/
def Row : Type := List (String × Cell)

/-- `df[label]` read on one row after `pd.concat` column alignment: a label
the row does not carry reads as NaN. -/
def getCell (r : Row) (label : String) : Cell :=
  match (List.find? (fun p => decide (p.1 = label)) r) with
  | some p => p.2
  | none => Cell.na

/-- A quick-entry record as built by the form handler, app.py lines
104-108: `{"Data": date.strftime(...), "Medição": med, "Valor": val}`.
The two numeric fields come from `st.number_input(min_value=0.0)`. -/
structure Entry where
  date : String
  med : ℚ
  val : ℚ
deriving DecidableEq

/-- Python `x or default` applied to an optional column label
(app.py line 127): `None` — and a falsy label such as `""` — selects the
default. -/
def pyOr (o : Option String) (default : String) : String :=
  match o with
  | none => default
  | some s => if s = "" then default else s

/-- Renaming of one pending record into the raw table's column space,
app.py line 127: `mapped_extra.columns = [mapping_temp['data'] or 'Data',
mapping_temp['medicao'] or 'Medição', mapping_temp['valor'] or 'Valor']` —
positional rename of the record's three fields `Data`, `Medição`, `Valor`. -/
def translateEntry (m : Mapping) (e : Entry) : Row :=
  [(pyOr m.data "Data", Cell.txt e.date),
   (pyOr m.medicao "Medição", Cell.num e.med),
   (pyOr m.valor "Valor", Cell.num e.val)]

/-- An uploaded raw table: its column labels and its rows. -/
structure RawTable where
  cols : List String
  rows : List Row

/-- Reconciliation, app.py lines 122-130: when pending entries exist,
`mapping_temp = mapear_colunas_inteligentes(raw_df.columns)`, the pending
rows are renamed into the raw column space and
`df = pd.concat([raw_df, mapped_extra], ignore_index=True)`; with no
pending entries `df = raw_df` (which equals appending zero rows). -/
def reconcile (raw : RawTable) (entries : List Entry) : List Row :=
  raw.rows ++ entries.map (translateEntry (mapear_colunas_inteligentes raw.cols))

/-- One Streamlit rerun of the script: `df` is rebuilt from `raw_df` and
the pending entries; the previously displayed dataframe is discarded, not
fed back in (app.py lines 118-130). -/
def recompute (raw : RawTable) (entries : List Entry) : List Row → List Row :=
  fun _ => reconcile raw entries

/-- The quick-entry submission handler, app.py lines 103-109: build the
record and append it to the session's pending sequence
(`st.session_state['extra_data']`).  `st.number_input(min_value=0.0)`
(lines 99-100) never yields a value below its floor, modelled by clamping. -/
def submitEntry (pending : List Entry) (date : String) (q v : ℚ) : List Entry :=
  pending ++ [{ date := date, med := max 0 q, val := max 0 v }]

/-- The session's pending-entries sequence after a series of form
submissions, starting from the empty dataframe of app.py line 85. -/
def sessionPending (inputs : List (String × ℚ × ℚ)) : List Entry :=
  inputs.foldl (fun p i => submitEntry p i.1 i.2.1 i.2.2) []

/-- Trend calculation, app.py lines 172-177: with at least two rows,
`delta = ((last - prev) / prev) * 100 if prev != 0 else 0` on the last two
values of the column in their current order; otherwise `delta = 0`. -/
def lastPeriodDelta (vs : List ℚ) : ℚ :=
  match vs.reverse with
  | b :: a :: _ => if a ≠ 0 then (b - a) / a * 100 else 0
  | _ => 0

/-- Modelled from the spec: `progressRatio = min(totalQuantity / target,
1.0)` for a user-supplied target > 0, and 0 if target ≤ 0.  The variant in
src/app.py (lines 200-223) only renders the total against the target in a
gauge and computes no ratio, so this KPI is modelled from the spec text. -/
def progressRatio (totalQuantity target : ℚ) : ℚ :=
  if 0 < target then min (totalQuantity / target) 1 else 0

/-- Restatement of the spec's ActiveSubset contract for comparison with
the code: the Quantity values that are non-null and non-zero after
coercion. -/
def activeValsSpec (cs : List Cell) : List ℚ :=
  (validVals cs).filter fun x => decide (x ≠ 0)

/-- Restatement of the claimed KPI for comparison with the code:
`meanQuantity` as the mean over the ActiveSubset only, 0 for an empty
subset. -/
def activeMeanSpec (cs : List Cell) : ℚ :=
  let v := activeValsSpec cs
  if v.length = 0 then 0 else v.sum / (v.length : ℚ)

/-! ## Supporting lemmas and claim theorems -/

theorem foldl_step_role (kws : List String) (proj : Mapping → Option String)
    (hstep : ∀ m c, proj (step m c) = bindRole (proj m) kws (strLower c) c) :
    ∀ (cols : List String) (m : Mapping),
      proj (cols.foldl step m) =
        (match proj m with
         | some x => some x
         | none => cols.find? fun c => kwAny kws (strLower c)) := by
  intro cols
  induction cols with
  | nil =>
    intro m
    cases h : proj m <;> simp [h]
  | cons c cs ih =>
    intro m
    rw [List.foldl_cons, ih, hstep]
    cases h : proj m with
    | some d => simp [bindRole]
    | none =>
      simp only [bindRole]
      by_cases hk : kwAny kws (strLower c) = true
      · rw [if_pos hk, List.find?_cons_of_pos _ (by simpa using hk)]
      · rw [if_neg hk, List.find?_cons_of_neg _ (by simpa using hk)]

theorem mapear_data_eq (cols : List String) :
    (mapear_colunas_inteligentes cols).data =
      cols.find? fun c => kwAny dataKw (strLower c) := by
  simpa [mapear_colunas_inteligentes] using
    foldl_step_role dataKw Mapping.data (fun m c => rfl) cols
      { data := none, medicao := none, valor := none }

theorem mapear_medicao_eq (cols : List String) :
    (mapear_colunas_inteligentes cols).medicao =
      cols.find? fun c => kwAny medicaoKw (strLower c) := by
  simpa [mapear_colunas_inteligentes] using
    foldl_step_role medicaoKw Mapping.medicao (fun m c => rfl) cols
      { data := none, medicao := none, valor := none }

theorem mapear_valor_eq (cols : List String) :
    (mapear_colunas_inteligentes cols).valor =
      cols.find? fun c => kwAny valorKw (strLower c) := by
  simpa [mapear_colunas_inteligentes] using
    foldl_step_role valorKw Mapping.valor (fun m c => rfl) cols
      { data := none, medicao := none, valor := none }

/-- Claim C3 is false as stated: a column is NOT consumed by the first
role it fills.  The single column label "data total" matches the date
keyword "data" and the value keyword "total", and
`mapear_colunas_inteligentes` binds it to BOTH roles, so a column can
satisfy more than one role. -/
theorem c3_schema_counterexample :
    (mapear_colunas_inteligentes ["data total"]).data = some "data total" ∧
    (mapear_colunas_inteligentes ["data total"]).medicao = none ∧
    (mapear_colunas_inteligentes ["data total"]).valor = some "data total" := by
  refine ⟨?_, ?_, ?_⟩ <;> decide

/-- Claim C3 (amended): schema inference iterates the columns in their
original order and, for each role independently, binds the role to the
first column whose lowercased label contains one of the role's keywords;
each role is bound at most once (first match wins), the result is
deterministic, but a column is not consumed: one column may be bound to
several roles when keyword sets overlap. -/
theorem c3_schema_inference_amended (cols : List String) :
    (mapear_colunas_inteligentes cols).data =
      (cols.find? fun c => kwAny dataKw (strLower c)) ∧
    (mapear_colunas_inteligentes cols).medicao =
      (cols.find? fun c => kwAny medicaoKw (strLower c)) ∧
    (mapear_colunas_inteligentes cols).valor =
      (cols.find? fun c => kwAny valorKw (strLower c)) :=
  ⟨mapear_data_eq cols, mapear_medicao_eq cols, mapear_valor_eq cols⟩

theorem lastPeriodDelta_concat (ws : List ℚ) (a b : ℚ) :
    lastPeriodDelta (ws ++ [a, b]) = if a ≠ 0 then (b - a) / a * 100 else 0 := by
  have h : (ws ++ [a, b]).reverse = b :: a :: ws.reverse := by simp
  unfold lastPeriodDelta
  rw [h]

/-- Claim C6: the trend delta equals `(last - secondToLast) / secondToLast
* 100` on the last two values in their current order, is 0 when the
second-to-last value is 0 or fewer than two rows exist; a sequence ending
`[..., 80, 100]` yields 25, and a single row yields 0. -/
theorem c6_lastPeriodDelta (ws : List ℚ) (a b v : ℚ) :
    lastPeriodDelta (ws ++ [a, b]) = (if a = 0 then 0 else (b - a) / a * 100) ∧
    lastPeriodDelta [v] = 0 ∧
    lastPeriodDelta ([] : List ℚ) = 0 ∧
    lastPeriodDelta (ws ++ [80, 100]) = 25 := by
  refine ⟨?_, rfl, rfl, ?_⟩
  · rw [lastPeriodDelta_concat]
    by_cases h : a = 0 <;> simp [h]
  · rw [lastPeriodDelta_concat]
    have h80 : ((80 : ℚ) ≠ 0) := by norm_num
    rw [if_pos h80]
    norm_num

/-- Claim C7: `progressRatio` is `min(totalQuantity / target, 1.0)` for a
target > 0 and 0 for a target ≤ 0 (KPI modelled from the spec, see
`progressRatio`). -/
theorem c7_progressRatio (tq tgt : ℚ) :
    (0 < tgt → progressRatio tq tgt = min (tq / tgt) 1) ∧
    (tgt ≤ 0 → progressRatio tq tgt = 0) := by
  constructor
  · intro h
    rw [progressRatio, if_pos h]
  · intro h
    rw [progressRatio, if_neg (not_lt.mpr h)]

theorem c7_progressRatio_witness :
    0 < (100 : ℚ) ∧ progressRatio 120 100 = min ((120 : ℚ) / 100) 1 ∧
      min ((120 : ℚ) / 100) 1 = 1 :=
  ⟨by norm_num, (c7_progressRatio 120 100).1 (by norm_num), by norm_num⟩

/-- Claim C1 is false as stated: `df[col_med].mean()` (app.py line 169) is
taken over ALL rows of the reconciled table — there is no ActiveSubset
filtering anywhere in the source — so on the end-to-end Quantity column
[10, 20, 0] the code yields 10, not the claimed 15 (15 is the mean over
the non-zero subset, restated here as `activeMeanSpec`). -/
theorem c1_mean_counterexample :
    seriesMean [Cell.num 10, Cell.num 20, Cell.num 0] = some 10 ∧
    activeMeanSpec [Cell.num 10, Cell.num 20, Cell.num 0] = 15 ∧
    ¬ seriesMean [Cell.num 10, Cell.num 20, Cell.num 0] = some 15 := by
  have hv : validVals [Cell.num 10, Cell.num 20, Cell.num 0] = [10, 20, 0] := by
    simp [validVals, toNum]
  have ha : activeValsSpec [Cell.num 10, Cell.num 20, Cell.num 0] = [10, 20] := by
    rw [activeValsSpec, hv]
    decide
  refine ⟨?_, ?_, ?_⟩
  · simp only [seriesMean, hv]
    norm_num
  · simp only [activeMeanSpec, ha]
    norm_num
  · simp only [seriesMean, hv]
    norm_num

/-- Claim C1 (amended): `meanQuantity` is the NaN-skipping arithmetic mean
of the coerced Quantity values over ALL rows of the reconciled table —
zero-quantity rows included, no active-subset filtering — and it is NaN
(`none`), not 0, when no numeric value exists; on [10, 20, 0] it is 10. -/
theorem c1_mean_amended (cs : List Cell) :
    (validVals cs ≠ [] →
      seriesMean cs = some ((validVals cs).sum / ((validVals cs).length : ℚ))) ∧
    (validVals cs = [] → seriesMean cs = none) := by
  constructor
  · intro h
    simp only [seriesMean]
    rw [if_neg (by simpa [List.length_eq_zero] using h)]
  · intro h
    simp only [seriesMean]
    rw [if_pos (by simp [h])]

theorem c1_mean_amended_witness :
    validVals [Cell.num 10, Cell.num 20, Cell.num 0] ≠ [] ∧
    seriesMean [Cell.num 10, Cell.num 20, Cell.num 0] =
      some ((validVals [Cell.num 10, Cell.num 20, Cell.num 0]).sum /
        ((validVals [Cell.num 10, Cell.num 20, Cell.num 0]).length : ℚ)) :=
  ⟨by decide, (c1_mean_amended _).1 (by decide)⟩

/-- Claim C8 is false as stated: the audit is NOT total over arbitrary
cell values.  A text cell in the measured column makes it object dtype,
and both `df[col].mean()` and the elementwise comparisons raise
`TypeError` to the caller (there is no try/except around the audit,
app.py lines 142-155), instead of the malformed value being excluded. -/
theorem c8_totality_counterexample :
    auditNegative [Cell.num 1, Cell.txt "abc"] = Except.error "TypeError" ∧
    auditOutlier [Cell.num 1, Cell.txt "abc"] = Except.error "TypeError" :=
  ⟨rfl, rfl⟩

/-- Claim C8 (amended): over columns of numbers and nulls the computations
are total and the claimed asymmetry holds — a null (failed coercion from
the ingestion path) contributes 0 to the straight sum, is excluded (not
counted as zero) from the mean and the outlier statistics, is never
flagged by either check, and neither check errors; a text cell, however,
makes both audit checks raise a type error instead of being excluded. -/
theorem c8_totality_amended (cs : List Cell) (h : hasTxt cs = false) :
    seriesSum (Cell.na :: cs) = seriesSum cs ∧
    seriesMean (Cell.na :: cs) = seriesMean cs ∧
    outlierCount (Cell.na :: cs) = outlierCount cs ∧
    negCount (Cell.na :: cs) = negCount cs ∧
    auditOutlier cs = Except.ok (outlierCount cs) ∧
    auditNegative cs = Except.ok (negCount cs) := by
  refine ⟨rfl, rfl, rfl, rfl, ?_, ?_⟩
  · rw [auditOutlier, if_neg (by simp [h])]
  · rw [auditNegative, if_neg (by simp [h])]

theorem c8_totality_amended_witness :
    hasTxt [Cell.num 1, Cell.num 2] = false ∧
    (seriesSum (Cell.na :: [Cell.num 1, Cell.num 2]) = seriesSum [Cell.num 1, Cell.num 2] ∧
     seriesMean (Cell.na :: [Cell.num 1, Cell.num 2]) = seriesMean [Cell.num 1, Cell.num 2] ∧
     outlierCount (Cell.na :: [Cell.num 1, Cell.num 2]) = outlierCount [Cell.num 1, Cell.num 2] ∧
     negCount (Cell.na :: [Cell.num 1, Cell.num 2]) = negCount [Cell.num 1, Cell.num 2] ∧
     auditOutlier [Cell.num 1, Cell.num 2] = Except.ok (outlierCount [Cell.num 1, Cell.num 2]) ∧
     auditNegative [Cell.num 1, Cell.num 2] = Except.ok (negCount [Cell.num 1, Cell.num 2])) :=
  ⟨rfl, c8_totality_amended [Cell.num 1, Cell.num 2] rfl⟩

/-- Claim C9: on a (text-free) column the NegativeValue check produces
exactly one finding whenever a row with Quantity −5 is present — whatever
the other values and independently of the outlier branch — and the
finding's affected-row count is the number of rows with a value < 0. -/
theorem c9_negative_finding (cs : List Cell) (ht : hasTxt cs = false)
    (h5 : Cell.num (-5) ∈ cs) :
    anomalias cs = Except.ok (findingsOf cs) ∧
    0 < negCount cs ∧
    (findingsOf cs).filter (fun f => decide (f.kind = FindingKind.negativeValue)) =
      [{ kind := FindingKind.negativeValue, affectedRowCount := negCount cs }] := by
  have hneg : 0 < negCount cs := by
    have hm : (-5 : ℚ) ∈ validVals cs :=
      List.mem_filterMap.mpr ⟨Cell.num (-5), h5, rfl⟩
    have hmem : (-5 : ℚ) ∈ (validVals cs).filter fun x => decide (x < 0) :=
      List.mem_filter.mpr ⟨hm, by norm_num⟩
    exact List.length_pos.mpr (List.ne_nil_of_mem hmem)
  refine ⟨?_, hneg, ?_⟩
  · rw [anomalias, if_neg (by simp [ht])]
  · by_cases ho : 0 < outlierCount cs <;>
      simp [findingsOf, ho, hneg, List.filter_append]

theorem c9_negative_finding_witness :
    hasTxt [Cell.num (-5)] = false ∧ Cell.num (-5) ∈ [Cell.num (-5)] ∧
    (anomalias [Cell.num (-5)] = Except.ok (findingsOf [Cell.num (-5)]) ∧
     0 < negCount [Cell.num (-5)] ∧
     (findingsOf [Cell.num (-5)]).filter
         (fun f => decide (f.kind = FindingKind.negativeValue)) =
       [{ kind := FindingKind.negativeValue,
          affectedRowCount := negCount [Cell.num (-5)] }]) :=
  ⟨rfl, by decide, c9_negative_finding [Cell.num (-5)] rfl (by decide)⟩

theorem ssdQ_nonneg (vs : List ℚ) : 0 ≤ ssdQ vs := by
  rw [ssdQ]
  apply List.sum_nonneg
  intro x hx
  obtain ⟨y, -, rfl⟩ := List.mem_map.mp hx
  positivity

theorem outlierFlag_true_iff (k : ℚ) (vs : List ℚ) (x : ℚ) :
    outlierFlag k vs x = true ↔
      (2 ≤ vs.length ∧ meanQ vs < x ∧
        k ^ 2 * ssdQ vs < (x - meanQ vs) ^ 2 * ((vs.length : ℚ) - 1)) := by
  simp [outlierFlag, and_assoc]

theorem outlierFlag_iff_real (k : ℚ) (vs : List ℚ) (x : ℚ)
    (hk : 0 ≤ k) (hn : 2 ≤ vs.length) :
    (outlierFlag k vs x = true ↔
      ((meanQ vs : ℝ) + (k : ℝ) *
          Real.sqrt ((ssdQ vs : ℝ) / ((vs.length : ℝ) - 1)) < (x : ℝ))) := by
  have hn1 : (0 : ℝ) < ((vs.length : ℝ) - 1) := by
    have h2 : (2 : ℝ) ≤ (vs.length : ℝ) := by exact_mod_cast hn
    linarith
  have hkR : (0 : ℝ) ≤ (k : ℝ) := by exact_mod_cast hk
  have hS : (0 : ℝ) ≤ (ssdQ vs : ℝ) := by exact_mod_cast ssdQ_nonneg vs
  have hsqrt : Real.sqrt ((k : ℝ) ^ 2 * ((ssdQ vs : ℝ) / ((vs.length : ℝ) - 1)))
      = (k : ℝ) * Real.sqrt ((ssdQ vs : ℝ) / ((vs.length : ℝ) - 1)) := by
    rw [Real.sqrt_mul (by positivity) _, Real.sqrt_sq hkR]
  rw [outlierFlag_true_iff]
  constructor
  · rintro ⟨-, h1, h2⟩
    have h1R : (meanQ vs : ℝ) < (x : ℝ) := by exact_mod_cast h1
    have h2R : (k : ℝ) ^ 2 * (ssdQ vs : ℝ) <
        ((x : ℝ) - (meanQ vs : ℝ)) ^ 2 * ((vs.length : ℝ) - 1) := by
      exact_mod_cast h2
    have hxm : (0 : ℝ) < (x : ℝ) - (meanQ vs : ℝ) := by linarith
    have hlt : (k : ℝ) ^ 2 * ((ssdQ vs : ℝ) / ((vs.length : ℝ) - 1)) <
        ((x : ℝ) - (meanQ vs : ℝ)) ^ 2 := by
      have heq : (k : ℝ) ^ 2 * ((ssdQ vs : ℝ) / ((vs.length : ℝ) - 1)) =
          ((k : ℝ) ^ 2 * (ssdQ vs : ℝ)) / ((vs.length : ℝ) - 1) := by ring
      rw [heq, div_lt_iff₀ hn1]
      exact h2R
    have hs : Real.sqrt ((k : ℝ) ^ 2 * ((ssdQ vs : ℝ) / ((vs.length : ℝ) - 1))) <
        (x : ℝ) - (meanQ vs : ℝ) := by
      rw [Real.sqrt_lt' hxm]
      exact hlt
    rw [hsqrt] at hs
    linarith
  · intro h
    have h0 : (0 : ℝ) ≤ (k : ℝ) * Real.sqrt ((ssdQ vs : ℝ) / ((vs.length : ℝ) - 1)) :=
      mul_nonneg hkR (Real.sqrt_nonneg _)
    have hxm : (0 : ℝ) < (x : ℝ) - (meanQ vs : ℝ) := by linarith
    refine ⟨hn, ?_, ?_⟩
    · exact_mod_cast (show (meanQ vs : ℝ) < (x : ℝ) by linarith)
    · have hs : Real.sqrt ((k : ℝ) ^ 2 * ((ssdQ vs : ℝ) / ((vs.length : ℝ) - 1))) <
          (x : ℝ) - (meanQ vs : ℝ) := by
        rw [hsqrt]
        linarith
      rw [Real.sqrt_lt' hxm] at hs
      have hq : (k : ℝ) ^ 2 * (ssdQ vs : ℝ) <
          ((x : ℝ) - (meanQ vs : ℝ)) ^ 2 * ((vs.length : ℝ) - 1) := by
        have heq : (k : ℝ) ^ 2 * ((ssdQ vs : ℝ) / ((vs.length : ℝ) - 1)) =
            ((k : ℝ) ^ 2 * (ssdQ vs : ℝ)) / ((vs.length : ℝ) - 1) := by ring
        rw [heq, div_lt_iff₀ hn1] at hs
        exact hs
      exact_mod_cast hq

/-- Claim C2 is false as stated: the code's multiplier is 2, not 2.5.  On
the Quantity values [2,3,3,3,3,3,3,300] the code flags exactly the value
300 (one row), yet 300 does NOT exceed μ + 2.5·σ — μ = 40 and sample
σ = √(77258/7) give μ + 2.5σ ≈ 302.65 — so "flags exactly the rows
exceeding μ + k·σ with k defaulting to 2.5" contradicts the code on the
claim's own test vector. -/
theorem c2_outlier_counterexample :
    (validVals (([2,3,3,3,3,3,3,300] : List ℚ).map Cell.num)).filter
        (isOutlier (validVals (([2,3,3,3,3,3,3,300] : List ℚ).map Cell.num))) =
      [(300 : ℚ)] ∧
    outlierCount (([2,3,3,3,3,3,3,300] : List ℚ).map Cell.num) = 1 ∧
    outlierFlag (5/2) [2,3,3,3,3,3,3,300] 300 = false ∧
    ¬ ((meanQ [2,3,3,3,3,3,3,300] : ℝ) + ((5/2 : ℚ) : ℝ) *
        Real.sqrt ((ssdQ [2,3,3,3,3,3,3,300] : ℝ) /
          ((([2,3,3,3,3,3,3,300] : List ℚ).length : ℝ) - 1)) < ((300 : ℚ) : ℝ)) := by
  have hvs : validVals (([2,3,3,3,3,3,3,300] : List ℚ).map Cell.num) =
      [2,3,3,3,3,3,3,300] := by
    simp [validVals, toNum]
  have hmean : meanQ [2,3,3,3,3,3,3,300] = 40 := by
    norm_num [meanQ]
  have hssd : ssdQ [2,3,3,3,3,3,3,300] = 77258 := by
    simp only [ssdQ, hmean]
    norm_num
  have h2low : isOutlier [2,3,3,3,3,3,3,300] 2 = false := by
    apply Bool.eq_false_iff.mpr
    intro hcontra
    obtain ⟨-, hlt, -⟩ := (outlierFlag_true_iff 2 [2,3,3,3,3,3,3,300] 2).mp hcontra
    rw [hmean] at hlt
    norm_num at hlt
  have h3low : isOutlier [2,3,3,3,3,3,3,300] 3 = false := by
    apply Bool.eq_false_iff.mpr
    intro hcontra
    obtain ⟨-, hlt, -⟩ := (outlierFlag_true_iff 2 [2,3,3,3,3,3,3,300] 3).mp hcontra
    rw [hmean] at hlt
    norm_num at hlt
  have h300 : isOutlier [2,3,3,3,3,3,3,300] 300 = true :=
    (outlierFlag_true_iff 2 [2,3,3,3,3,3,3,300] 300).mpr
      ⟨by norm_num, by rw [hmean]; norm_num, by rw [hmean, hssd]; norm_num⟩
  have hfil : ([2,3,3,3,3,3,3,300] : List ℚ).filter
      (isOutlier [2,3,3,3,3,3,3,300]) = [(300 : ℚ)] := by
    simp [List.filter_cons, h2low, h3low, h300]
  have h25 : outlierFlag (5/2) [2,3,3,3,3,3,3,300] 300 = false := by
    apply Bool.eq_false_iff.mpr
    intro hcontra
    obtain ⟨-, -, hlt⟩ := (outlierFlag_true_iff (5/2) [2,3,3,3,3,3,3,300] 300).mp hcontra
    rw [hmean, hssd] at hlt
    norm_num at hlt
  refine ⟨?_, ?_, h25, ?_⟩
  · rw [hvs, hfil]
  · rw [outlierCount, hvs, hfil]
    rfl
  · intro hcontra
    have hflag := (outlierFlag_iff_real (5/2) [2,3,3,3,3,3,3,300] 300
      (by norm_num) (by norm_num)).mpr hcontra
    rw [h25] at hflag
    exact absurd hflag (by simp)

/-- Claim C2 (amended): the outlier check uses the hardcoded multiplier
k = 2 — not 2.5 — and computes sample mean and sample standard deviation
(ddof = 1) over the valid numeric values of the whole in-view column (no
active-subset filtering exists); with fewer than 2 valid values the std is
NaN and nothing is flagged; with at least 2, a value is flagged exactly
when it exceeds μ + 2σ. -/
theorem c2_outlier_amended (cs : List Cell) :
    ((validVals cs).length < 2 → outlierCount cs = 0) ∧
    (∀ x : ℚ, 2 ≤ (validVals cs).length →
      (isOutlier (validVals cs) x = true ↔
        ((meanQ (validVals cs) : ℝ) + ((2 : ℚ) : ℝ) *
            Real.sqrt ((ssdQ (validVals cs) : ℝ) /
              (((validVals cs).length : ℝ) - 1)) < (x : ℝ)))) := by
  constructor
  · intro h
    have hf : ∀ x, isOutlier (validVals cs) x = false := by
      intro x
      apply Bool.eq_false_iff.mpr
      intro hcontra
      obtain ⟨hn, -, -⟩ := (outlierFlag_true_iff 2 (validVals cs) x).mp hcontra
      omega
    have hnil : (validVals cs).filter (isOutlier (validVals cs)) = [] :=
      List.filter_eq_nil_iff.mpr fun a _ => by simp [hf a]
    rw [outlierCount, hnil]
    rfl
  · intro x hx
    exact outlierFlag_iff_real 2 (validVals cs) x (by norm_num) hx

theorem c2_outlier_amended_witness :
    ((validVals [Cell.num 5]).length < 2 ∧ outlierCount [Cell.num 5] = 0) ∧
    (2 ≤ (validVals [Cell.num 2, Cell.num 3, Cell.num 3, Cell.num 100]).length ∧
      (isOutlier (validVals [Cell.num 2, Cell.num 3, Cell.num 3, Cell.num 100]) 100 = true ↔
        ((meanQ (validVals [Cell.num 2, Cell.num 3, Cell.num 3, Cell.num 100]) : ℝ) +
            ((2 : ℚ) : ℝ) *
              Real.sqrt ((ssdQ (validVals [Cell.num 2, Cell.num 3, Cell.num 3, Cell.num 100]) : ℝ) /
                (((validVals [Cell.num 2, Cell.num 3, Cell.num 3, Cell.num 100]).length : ℝ) - 1)) <
          ((100 : ℚ) : ℝ)))) :=
  ⟨⟨by decide, (c2_outlier_amended [Cell.num 5]).1 (by decide)⟩,
   ⟨by decide, (c2_outlier_amended [Cell.num 2, Cell.num 3, Cell.num 3, Cell.num 100]).2
      100 (by decide)⟩⟩

/-- Claim C4: reconciliation is a pure function of the raw table and the
pending entries — every Streamlit rerun rebuilds the reconciled table from
`raw_df`, discarding the previous one — so re-running any number of times
yields the identical table, in which each pending entry contributes
exactly one appended row (the segment after the raw rows is exactly the
translated pending entries, in submission order). -/
theorem c4_reconcile_idempotent (raw : RawTable) (es : List Entry)
    (prev : List Row) (n : ℕ) (hn : 1 ≤ n) :
    (recompute raw es)^[n] prev = reconcile raw es ∧
    (reconcile raw es).length = raw.rows.length + es.length ∧
    (reconcile raw es).drop raw.rows.length =
      es.map (translateEntry (mapear_colunas_inteligentes raw.cols)) := by
  refine ⟨?_, ?_, ?_⟩
  · cases n with
    | zero => exact absurd hn (by omega)
    | succ m =>
      rw [Function.iterate_succ_apply']
      rfl
  · simp [reconcile]
  · rw [reconcile]
    exact List.drop_left _ _

theorem c4_reconcile_idempotent_witness :
    1 ≤ 2 ∧
    ((recompute { cols := ["Data", "Medição"], rows := [[("Data", Cell.txt "2024-01-01"), ("Medição", Cell.num 10)]] }
        [{ date := "2024-01-02", med := 5, val := 50 }])^[2] [] =
      reconcile { cols := ["Data", "Medição"], rows := [[("Data", Cell.txt "2024-01-01"), ("Medição", Cell.num 10)]] }
        [{ date := "2024-01-02", med := 5, val := 50 }] ∧
     (reconcile { cols := ["Data", "Medição"], rows := [[("Data", Cell.txt "2024-01-01"), ("Medição", Cell.num 10)]] }
        [{ date := "2024-01-02", med := 5, val := 50 }]).length =
      ([[("Data", Cell.txt "2024-01-01"), ("Medição", Cell.num 10)]] : List Row).length + 1 ∧
     (reconcile { cols := ["Data", "Medição"], rows := [[("Data", Cell.txt "2024-01-01"), ("Medição", Cell.num 10)]] }
        [{ date := "2024-01-02", med := 5, val := 50 }]).drop
        ([[("Data", Cell.txt "2024-01-01"), ("Medição", Cell.num 10)]] : List Row).length =
      ([{ date := "2024-01-02", med := 5, val := 50 }] : List Entry).map
        (translateEntry (mapear_colunas_inteligentes ["Data", "Medição"]))) :=
  ⟨by decide,
   c4_reconcile_idempotent
     { cols := ["Data", "Medição"], rows := [[("Data", Cell.txt "2024-01-01"), ("Medição", Cell.num 10)]] }
     [{ date := "2024-01-02", med := 5, val := 50 }] [] 2 (by decide)⟩

/-- Claim C5: when the Date, Quantity or MonetaryValue role is unmapped,
the quick-entry field for that role is placed under the literal default
label for that role — "Data", "Medição", "Valor" (app.py line 127) — so
the record's data is not dropped.  The label-distinctness hypotheses rule
out pandas duplicate-column shadowing; they hold for every mapping
`mapear_colunas_inteligentes` produces, since no date or value keyword
occurs in "Medição" and no date or quantity keyword occurs in "Valor". -/
theorem c5_fallback_labels (m : Mapping) (e : Entry) :
    (m.data = none → getCell (translateEntry m e) "Data" = Cell.txt e.date) ∧
    (m.medicao = none → pyOr m.data "Data" ≠ "Medição" →
      getCell (translateEntry m e) "Medição" = Cell.num e.med) ∧
    (m.valor = none → pyOr m.data "Data" ≠ "Valor" → pyOr m.medicao "Medição" ≠ "Valor" →
      getCell (translateEntry m e) "Valor" = Cell.num e.val) := by
  refine ⟨?_, ?_, ?_⟩
  · intro h
    simp only [translateEntry, h, getCell]
    rw [List.find?_cons_of_pos _ (by simp [pyOr])]
  · intro h h1
    simp only [translateEntry, h, getCell]
    rw [List.find?_cons_of_neg _ (by simpa using h1),
      List.find?_cons_of_pos _ (by simp [pyOr])]
  · intro h h1 h2
    simp only [translateEntry, h, getCell]
    rw [List.find?_cons_of_neg _ (by simpa using h1),
      List.find?_cons_of_neg _ (by simpa using h2),
      List.find?_cons_of_pos _ (by simp [pyOr])]

theorem c5_fallback_labels_witness :
    (({ data := none, medicao := none, valor := none } : Mapping).medicao = none ∧
      pyOr ({ data := none, medicao := none, valor := none } : Mapping).data "Data" ≠ "Medição") ∧
    getCell (translateEntry { data := none, medicao := none, valor := none }
        { date := "2024-01-01", med := 5, val := 7 }) "Medição" = Cell.num 5 :=
  ⟨⟨rfl, by decide⟩,
   (c5_fallback_labels { data := none, medicao := none, valor := none }
      { date := "2024-01-01", med := 5, val := 7 }).2.1 rfl (by decide)⟩

theorem sessionPending_eq (inputs : List (String × ℚ × ℚ)) :
    sessionPending inputs =
      inputs.map fun i => { date := i.1, med := max 0 i.2.1, val := max 0 i.2.2 } := by
  suffices h : ∀ p, inputs.foldl (fun p i => submitEntry p i.1 i.2.1 i.2.2) p =
      p ++ inputs.map (fun i => { date := i.1, med := max 0 i.2.1, val := max 0 i.2.2 }) by
    simpa [sessionPending] using h []
  induction inputs with
  | nil =>
    intro p
    simp
  | cons i is ih =>
    intro p
    rw [List.foldl_cons, ih]
    simp [submitEntry]

theorem validVals_map_num (l : List ℚ) : validVals (l.map Cell.num) = l := by
  induction l with
  | nil => rfl
  | cons x xs ih => simpa [validVals, toNum] using ih

/-- Claim C10: the quick-entry form clamps both numeric inputs at 0.0, so
every record in the session's pending sequence has quantity ≥ 0 and
monetary value ≥ 0, and consequently the quantity cells contributed by
quick entry can never be counted by the NegativeValue check. -/
theorem c10_quick_entry_nonneg (inputs : List (String × ℚ × ℚ)) :
    (∀ e, e ∈ sessionPending inputs → 0 ≤ e.med ∧ 0 ≤ e.val) ∧
    negCount ((sessionPending inputs).map fun e => Cell.num e.med) = 0 := by
  constructor
  · intro e he
    rw [sessionPending_eq] at he
    obtain ⟨i, -, rfl⟩ := List.mem_map.mp he
    exact ⟨le_max_left 0 _, le_max_left 0 _⟩
  · have h1 : ((sessionPending inputs).map fun e => Cell.num e.med) =
        ((sessionPending inputs).map Entry.med).map Cell.num :=
      (List.map_map _ _ _).symm
    rw [negCount, h1, validVals_map_num]
    refine List.length_eq_zero.mpr (List.filter_eq_nil_iff.mpr ?_)
    intro q hq
    obtain ⟨e, he, rfl⟩ := List.mem_map.mp hq
    rw [sessionPending_eq] at he
    obtain ⟨i, -, rfl⟩ := List.mem_map.mp he
    simp [not_lt, le_max_left]

theorem c10_quick_entry_nonneg_witness :
    ({ date := "2024-01-01", med := 5, val := 7 } : Entry) ∈
        sessionPending [("2024-01-01", 5, 7)] ∧
    (0 ≤ ({ date := "2024-01-01", med := 5, val := 7 } : Entry).med ∧
      0 ≤ ({ date := "2024-01-01", med := 5, val := 7 } : Entry).val) ∧
    negCount ((sessionPending [("2024-01-01", 5, 7)]).map fun e => Cell.num e.med) = 0 :=
  ⟨by decide,
   (c10_quick_entry_nonneg [("2024-01-01", 5, 7)]).1 _ (by decide),
   (c10_quick_entry_nonneg [("2024-01-01", 5, 7)]).2⟩
